import Mathlib

/-!
Shallow embedding of the weather ingestion/export script
(`src/settings.py` and `src/script.py`) and proofs about its behavior.

Python floats are modelled as exact rationals (`ℚ`); the decimal literals of
the source (`0.75006`, `22.5`, `45`, `337.5`, coordinate defaults) are carried
over verbatim.  Python `dict`/JSON optionality is modelled with `Option`;
uncaught Python exceptions are modelled with `Except String`.
-/

/-- Embeds the `Settings` class of `src/settings.py`.  Fields that carry a
default in the source carry the same default here; the three Postgres fields
without defaults are plain fields.  Note the source default for `FILE_NAME`
is the string `"weather_data.xlsx"` (settings.py line 18). -/
structure Settings where
  POSTGRES_HOST : String := "localhost"
  POSTGRES_USER : String
  POSTGRES_PASSWORD : String
  POSTGRES_DB : String
  WEATHER_URL : String := "https://api.open-meteo.com/v1/forecast"
  LATITUDE : ℚ := 55.69853856903821
  LONGITUDE : ℚ := 37.35957649999993
  PERIOD : ℕ := 180
  FILE_NAME : String := "weather_data.xlsx"
  ROW_NUMBER : ℕ := 10
  deriving DecidableEq

/-- A `Settings` value with every defaulted field at its source default; the
three required connection fields are irrelevant to every claim. -/
def defaultSettings : Settings :=
  { POSTGRES_USER := "user", POSTGRES_PASSWORD := "password", POSTGRES_DB := "db" }

/-- A parsed `datetime` value as produced by `datetime.fromisoformat`:
`wall` is the naive wall-clock instant (abstracted to an integer, e.g. seconds),
`tzOffset` is the UTC offset encoded in the ISO string, `none` when the string
was naive.  `datetime.fromisoformat` itself is modelled as the identity on this
already-parsed structure: payloads carry the parsed value directly. -/
structure PyDatetime where
  wall : ℤ
  tzOffset : Option ℤ
  deriving DecidableEq

/-- Embeds `timestamp.replace(tzinfo=timezone.utc)` (script.py line 154):
the wall-clock fields are kept, the zone is overwritten with UTC. -/
def PyDatetime.replaceTzUtc (t : PyDatetime) : PyDatetime :=
  { t with tzOffset := some 0 }

/-- Embeds `row.timestamp.replace(tzinfo=None)` (script.py line 187). -/
def PyDatetime.replaceTzNone (t : PyDatetime) : PyDatetime :=
  { t with tzOffset := none }

/-- The `current` object of the API payload: each key the script reads via
`current_weather.get(key, None)` is an `Option`, `none` when the key is absent
(script.py lines 136-144). -/
structure CurrentWeather where
  temperature_2m : Option ℚ := none
  precipitation : Option ℚ := none
  rain : Option ℚ := none
  showers : Option ℚ := none
  snowfall : Option ℚ := none
  surface_pressure : Option ℚ := none
  wind_speed_10m : Option ℚ := none
  wind_direction_10m : Option ℚ := none
  time : Option PyDatetime := none
  deriving DecidableEq

/-- The JSON body returned by the API: a JSON object that may or may not have a
`current` key (`if "current" in weather_data`, script.py line 134). -/
structure Payload where
  current : Option CurrentWeather := none
  deriving DecidableEq

/-- Embeds the `Weather` ORM row (script.py lines 26-43).  `latitude` and
`longitude` are non-null by type; `timestamp` is declared `nullable=False` on
the column (line 33) but the Python attribute can still be built as `None`,
hence `Option` here, with the column constraint enforced by `insertWeather`.
The surrogate `id` is assigned by the store and never read by the script, so it
is not part of the row value (row identity in the model is list position). -/
structure Weather where
  timestamp : Option PyDatetime
  latitude : ℚ
  longitude : ℚ
  temperature : Option ℚ
  wind_speed : Option ℚ
  wind_direction : Option String
  pressure : Option ℚ
  precipitation : Option ℚ
  rain : Option ℚ
  showers : Option ℚ
  snowfall : Option ℚ
  deriving DecidableEq

/-- The compass labels of `wind_direction_to_text` (script.py line 118); the
first entry and the literal returned on the `>= 337.5` branch are the Latin
letter C, as in the source bytes. -/
def directions : List String := ["C", "СВ", "В", "ЮВ", "Ю", "ЮЗ", "З", "СЗ"]

/-- Embeds `wind_direction_to_text` (script.py lines 114-124).  On the indexing
branch `degrees ≥ 0`, so Python's float floor-division `(degrees + 22.5) // 45`
followed by `int(...)` (truncation) is the mathematical floor.  The list
indexing `directions[index]` (which would raise `IndexError` out of range) is
modelled with `List.get?`; the C10 theorem shows the lookup never misses on
this branch, so `none` is returned exactly on the `degrees < 0 or degrees > 360`
branch. -/
def wind_direction_to_text (degrees : ℚ) : Option String :=
  if degrees < 0 ∨ degrees > 360 then none
  else if degrees ≥ 337.5 then some "C"
  else directions.get? (⌊(degrees + 22.5) / 45⌋).toNat

/-- The query parameters `get_weather` sends (script.py lines 96-102). -/
structure RequestParams where
  latitude : ℚ
  longitude : ℚ
  current : List String
  wind_speed_unit : String
  deriving DecidableEq

/-- An HTTP response from the weather endpoint: its status code and (parsed)
JSON body. -/
structure HttpResponse where
  status : ℕ
  body : Payload
  deriving DecidableEq

/-- Embeds `get_weather` (script.py lines 92-111) against an abstract HTTP
response: it builds the request parameters from its two arguments, and returns
the parsed JSON body on status 200 and `None` (the logged failure signal) on
any other status.  No exception escapes this function. -/
def get_weather (latitude longitude : ℚ) (response : HttpResponse) :
    RequestParams × Option Payload :=
  ({ latitude := latitude
     longitude := longitude
     current := ["temperature_2m", "precipitation", "rain", "showers", "snowfall",
                 "surface_pressure", "wind_speed_10m", "wind_direction_10m"]
     wind_speed_unit := "ms" },
   if response.status = 200 then some response.body else none)

/-- Embeds `save_weather_to_db` (script.py lines 127-170) up to the
`session.add` call: it returns the constructed row, `none` when the payload
has no `current` key (the body is skipped entirely), and an error when
`weather_data` is `None` — `"current" in None` raises
`TypeError: argument of type 'NoneType' is not iterable` (line 134). -/
def save_weather_to_db (latitude longitude : ℚ) (weather_data : Option Payload) :
    Except String (Option Weather) :=
  match weather_data with
  | none => .error "TypeError: argument of type NoneType is not iterable"
  | some payload =>
    match payload.current with
    | none => .ok none
    | some current_weather =>
      .ok (some
        { timestamp := current_weather.time.map PyDatetime.replaceTzUtc
          latitude := latitude
          longitude := longitude
          temperature := current_weather.temperature_2m
          wind_speed := current_weather.wind_speed_10m
          wind_direction := current_weather.wind_direction_10m.bind wind_direction_to_text
          pressure := current_weather.surface_pressure.map (fun p => p * 0.75006)
          precipitation := current_weather.precipitation
          rain := current_weather.rain
          showers := current_weather.showers
          snowfall := current_weather.snowfall.map (fun s => s * 10) })

/-- The store is the list of committed rows, in insertion order.  `insertWeather`
models `session.add` + `commit` against the `weather` table: the `timestamp`
column is declared `nullable=False` (script.py line 33), so committing a row
whose timestamp is `None` raises an integrity error instead of persisting. -/
def insertWeather (store : List Weather) (w : Weather) : Except String (List Weather) :=
  match w.timestamp with
  | none => .error "IntegrityError: null value in column timestamp violates not-null constraint"
  | some _ => .ok (store ++ [w])

/-- One iteration of the `fetch_weather` loop body (script.py lines 207-220)
against an abstract HTTP response and store.  The source passes
`settings.LATITUDE` as BOTH arguments of `get_weather` (line 214) and of
`save_weather_to_db` (line 217); the embedding reproduces this verbatim.
Returns the request parameters issued and either the store after the cycle or
the uncaught exception that would terminate the ingestion task. -/
def fetch_weather_cycle (s : Settings) (store : List Weather) (response : HttpResponse) :
    RequestParams × Except String (List Weather) :=
  let fetched := get_weather s.LATITUDE s.LATITUDE response
  (fetched.1,
    match save_weather_to_db s.LATITUDE s.LATITUDE fetched.2 with
    | .error e => .error e
    | .ok none => .ok store
    | .ok (some w) => insertWeather store w)

/-- The sort key of `ORDER BY Weather.timestamp DESC`.  Rows reach the store
only through `insertWeather`, which rejects null timestamps, so the `none`
branch is arbitrary. -/
def tsKey (w : Weather) : ℤ :=
  match w.timestamp with
  | some t => t.wall
  | none => 0

/-- Embeds `get_last_weather` (script.py lines 173-179):
`select(Weather).order_by(Weather.timestamp.desc()).limit(settings.ROW_NUMBER)`
over the current store contents. -/
def get_last_weather (s : Settings) (store : List Weather) : List Weather :=
  (store.mergeSort (fun a b => decide (tsKey b ≤ tsKey a))).take s.ROW_NUMBER

/-- A spreadsheet cell as written by `to_excel`. -/
inductive Cell where
  | num (q : ℚ)
  | txt (s : String)
  | dt (t : PyDatetime)
  | null
  deriving DecidableEq

/-- A nullable numeric cell. -/
def Cell.ofNum : Option ℚ → Cell
  | some q => .num q
  | none => .null

/-- A nullable text cell. -/
def Cell.ofTxt : Option String → Cell
  | some s => .txt s
  | none => .null

/-- The eleven localized column labels, in the dict-key order of
`export_to_excel` (script.py lines 186-197). -/
def excelColumns : List String :=
  ["Дата и время", "Широта", "Долгота", "Температура, град.",
   "Скорость ветра, м/с", "Направление ветра", "Давление, мм рт. ст.",
   "Осадки, мм", "Дождь, мм", "Ливень, мм", "Снег, мм"]

/-- One row dict of `export_to_excel`: the timestamp is displayed with
`replace(tzinfo=None)`; a null timestamp would raise `AttributeError` there,
but rows reaching the store always carry one (see `insertWeather`). -/
def excelRow (w : Weather) : List Cell :=
  [match w.timestamp with
   | some t => .dt t.replaceTzNone
   | none => .null,
   .num w.latitude, .num w.longitude, Cell.ofNum w.temperature,
   Cell.ofNum w.wind_speed, Cell.ofTxt w.wind_direction, Cell.ofNum w.pressure,
   Cell.ofNum w.precipitation, Cell.ofNum w.rain, Cell.ofNum w.showers,
   Cell.ofNum w.snowfall]

/-- The sheet written by `df.to_excel(..., index=False)`: the header row (the
frame's columns) followed by one row per record. -/
structure Spreadsheet where
  header : List String
  rows : List (List Cell)
  deriving DecidableEq

/-- Embeds `export_to_excel` (script.py lines 182-204).  `pd.DataFrame` applied
to a list of row dicts takes its columns from the keys of those dicts; applied
to the empty list it yields an empty frame with NO columns, so the written
sheet then has no header labels at all. -/
def export_to_excel (data : List Weather) : Spreadsheet :=
  { header := if data.isEmpty then [] else excelColumns
    rows := data.map excelRow }

/-- The output filename built at script.py line 202:
`f"{settings.FILE_NAME}_{current_datetime}.xlsx"`, where `current_datetime` is
the `strftime("%Y%m%d_%H%M%S")` generation timestamp. -/
def export_filename (s : Settings) (current_datetime : String) : String :=
  s.FILE_NAME ++ "_" ++ current_datetime ++ ".xlsx"

/-! ## Sample data used by concrete evaluations and witnesses -/

/-- A 200-response body whose `current` object carries only the observation
time; the encoded offset (+180) is deliberately non-UTC. -/
def samplePayload : Payload :=
  { current := some { time := some { wall := 1000, tzOffset := some 180 } } }

/-- A successful HTTP response carrying `samplePayload`. -/
def sampleResponse : HttpResponse := { status := 200, body := samplePayload }

/-- The row the script persists for `sampleResponse` under `defaultSettings`:
note both coordinate columns hold the LATITUDE setting, and the stored
timestamp's zone is forced to UTC. -/
def sampleRecord : Weather :=
  { timestamp := some { wall := 1000, tzOffset := some 0 }
    latitude := 55.69853856903821
    longitude := 55.69853856903821
    temperature := none
    wind_speed := none
    wind_direction := none
    pressure := none
    precipitation := none
    rain := none
    showers := none
    snowfall := none }

/-- A 200-response body carrying only a surface pressure of 1000 hPa. -/
def pressurePayload : Payload :=
  { current := some { surface_pressure := some 1000 } }

/-! ## Claims -/

/-- C1: the claim says a non-200 response makes the fetch step yield the
failure signal `None`, persists nothing, raises no exception, and lets the
loop reach the next scheduled cycle.  The fetch step does yield `None`
(first conjunct), but `save_weather_to_db` then evaluates `"current" in None`,
which raises `TypeError` (second conjunct): the exception is uncaught and
terminates the ingestion task, so the loop never reaches the next cycle. -/
theorem c1_non200_cycle_raises_typeError :
    (get_weather defaultSettings.LATITUDE defaultSettings.LATITUDE
        { status := 500, body := {} }).2 = none ∧
    (fetch_weather_cycle defaultSettings [] { status := 500, body := {} }).2 =
      .error "TypeError: argument of type NoneType is not iterable" := by
  constructor <;> rfl

/-- C2: the claim says the request is issued for the configured coordinate
pair and the persisted row stores LONGITUDE in its longitude column.  In the
source `fetch_weather` passes `settings.LATITUDE` for BOTH arguments (lines
214 and 217), so the request's longitude parameter and the stored longitude
column both hold the LATITUDE setting, which differs from the LONGITUDE
setting under the default configuration. -/
theorem c2_longitude_setting_ignored :
    (fetch_weather_cycle defaultSettings [] sampleResponse).1.longitude =
      defaultSettings.LATITUDE ∧
    (fetch_weather_cycle defaultSettings [] sampleResponse).2 = .ok [sampleRecord] ∧
    sampleRecord.longitude = defaultSettings.LATITUDE ∧
    defaultSettings.LATITUDE ≠ defaultSettings.LONGITUDE := by
  refine ⟨rfl, rfl, rfl, ?_⟩
  norm_num [defaultSettings]

/-- C3: the wind-direction conversion yields `none` outside [0, 360], the
"North" label C on [337.5, 360], and otherwise the table entry at index
`int((d + 22.5) // 45)`; in particular 0 maps to C. -/
theorem c3_wind_direction_conversion (d : ℚ) :
    (d < 0 ∨ d > 360 → wind_direction_to_text d = none) ∧
    (337.5 ≤ d → d ≤ 360 → wind_direction_to_text d = some "C") ∧
    (0 ≤ d → d < 337.5 →
      wind_direction_to_text d = directions.get? (⌊(d + 22.5) / 45⌋).toNat) ∧
    wind_direction_to_text 0 = some "C" := by
  refine ⟨?_, ?_, ?_, ?_⟩
  · intro h
    simp only [wind_direction_to_text, if_pos h]
  · intro h1 h2
    have hno : ¬(d < 0 ∨ d > 360) := by push_neg; constructor <;> linarith
    simp only [wind_direction_to_text, if_neg hno, if_pos (show d ≥ 337.5 from h1)]
  · intro h0 h1
    have hno : ¬(d < 0 ∨ d > 360) := by push_neg; constructor <;> linarith
    have hno2 : ¬(d ≥ 337.5) := by linarith
    simp only [wind_direction_to_text, if_neg hno, if_neg hno2]
  · simp only [wind_direction_to_text]
    norm_num [directions]

/-- Witness for C3 at the concrete inputs 361, 350, 100 and 0. -/
theorem c3_wind_direction_conversion_witness :
    wind_direction_to_text 361 = none ∧
    wind_direction_to_text 350 = some "C" ∧
    wind_direction_to_text 100 = directions.get? (⌊((100 : ℚ) + 22.5) / 45⌋).toNat ∧
    wind_direction_to_text 0 = some "C" :=
  ⟨(c3_wind_direction_conversion 361).1 (Or.inr (by norm_num)),
   (c3_wind_direction_conversion 350).2.1 (by norm_num) (by norm_num),
   (c3_wind_direction_conversion 100).2.2.1 (by norm_num) (by norm_num),
   (c3_wind_direction_conversion 0).2.2.2⟩

/-- C10: on the indexing branch (0 ≤ d < 337.5) the computed index is at most
7, so the lookup in the eight-entry table never misses and the function
returns one of the eight labels. -/
theorem c10_wind_direction_index_in_bounds (d : ℚ) (h0 : 0 ≤ d) (h1 : d < 337.5) :
    (⌊(d + 22.5) / 45⌋).toNat ≤ 7 ∧
    wind_direction_to_text d ∈ directions.map some := by
  have hub : ⌊(d + 22.5) / 45⌋ < 8 := by
    rw [Int.floor_lt, div_lt_iff₀ (by norm_num : (0:ℚ) < 45)]
    push_cast
    linarith
  have hlb : 0 ≤ ⌊(d + 22.5) / 45⌋ := by
    apply Int.floor_nonneg.mpr
    positivity
  have hn : (⌊(d + 22.5) / 45⌋).toNat ≤ 7 := by omega
  refine ⟨hn, ?_⟩
  have heq := (c3_wind_direction_conversion d).2.2.1 h0 h1
  rw [heq]
  set i := (⌊(d + 22.5) / 45⌋).toNat with hi
  clear_value i
  interval_cases i <;> simp [directions]

/-- Witness for C10 at d = 100. -/
theorem c10_wind_direction_index_in_bounds_witness :
    (⌊((100 : ℚ) + 22.5) / 45⌋).toNat ≤ 7 ∧
    wind_direction_to_text 100 ∈ directions.map some :=
  c10_wind_direction_index_in_bounds 100 (by norm_num) (by norm_num)

/-- C4: any row present in the store after a successful fetch cycle either was
already there, or carries a non-null timestamp whose zone is UTC and which is
exactly the payload's observation time with its zone forced to UTC (whatever
offset the payload encoded); in particular no cycle ever adds a row with a
null timestamp. -/
theorem c4_persisted_timestamp_utc (s : Settings) (store store' : List Weather)
    (response : HttpResponse) (w : Weather)
    (h : (fetch_weather_cycle s store response).2 = .ok store') (hw : w ∈ store') :
    w ∈ store ∨
      (w.timestamp.map PyDatetime.tzOffset = some (some 0) ∧
       w.timestamp =
         (response.body.current.bind CurrentWeather.time).map PyDatetime.replaceTzUtc) := by
  simp only [fetch_weather_cycle, get_weather] at h
  by_cases hs : response.status = 200
  · rw [if_pos hs] at h
    cases hc : response.body.current with
    | none =>
      simp only [save_weather_to_db, hc] at h
      cases h
      exact Or.inl hw
    | some cw =>
      simp only [save_weather_to_db, hc] at h
      cases ht : cw.time with
      | none =>
        rw [ht] at h
        simp [insertWeather] at h
      | some t =>
        rw [ht] at h
        simp only [Option.map_some', insertWeather] at h
        cases h
        rcases List.mem_append.mp hw with hin | hone
        · exact Or.inl hin
        · right
          rcases List.mem_singleton.mp hone with rfl
          refine ⟨rfl, ?_⟩
          simp [hc, ht]
  · rw [if_neg hs] at h
    simp [save_weather_to_db] at h

/-- Witness for C4: the concrete successful cycle on `sampleResponse` from the
empty store persists exactly `sampleRecord`, whose timestamp is the payload
time with its +180 offset replaced by UTC. -/
theorem c4_persisted_timestamp_utc_witness :
    sampleRecord ∈ ([] : List Weather) ∨
      (sampleRecord.timestamp.map PyDatetime.tzOffset = some (some 0) ∧
       sampleRecord.timestamp =
         (sampleResponse.body.current.bind CurrentWeather.time).map PyDatetime.replaceTzUtc) :=
  c4_persisted_timestamp_utc defaultSettings [] [sampleRecord] sampleResponse
    sampleRecord rfl (List.mem_singleton.mpr rfl)

/-- C5: for every store state, the export query returns exactly the
min(ROW_NUMBER, total) most recent rows in descending timestamp order: its
length is that minimum, it is sorted by descending timestamp, and together
with the remaining rows (those it drops) it is a permutation of the store,
every returned row having a timestamp at least that of every dropped row.
The default ROW_NUMBER is 10. -/
theorem c5_export_query_most_recent (s : Settings) (store : List Weather) :
    defaultSettings.ROW_NUMBER = 10 ∧
    (get_last_weather s store).length = min s.ROW_NUMBER store.length ∧
    List.Pairwise (fun a b => tsKey b ≤ tsKey a) (get_last_weather s store) ∧
    (get_last_weather s store ++
        (store.mergeSort (fun a b => decide (tsKey b ≤ tsKey a))).drop s.ROW_NUMBER).Perm
      store ∧
    ∀ x ∈ get_last_weather s store,
      ∀ y ∈ (store.mergeSort (fun a b => decide (tsKey b ≤ tsKey a))).drop s.ROW_NUMBER,
        tsKey y ≤ tsKey x := by
  have htrans : ∀ a b c : Weather, decide (tsKey b ≤ tsKey a) = true →
      decide (tsKey c ≤ tsKey b) = true → decide (tsKey c ≤ tsKey a) = true := by
    intro a b c hab hbc
    simp only [decide_eq_true_eq] at hab hbc ⊢
    exact le_trans hbc hab
  have htotal : ∀ a b : Weather,
      (decide (tsKey b ≤ tsKey a) || decide (tsKey a ≤ tsKey b)) = true := by
    intro a b
    simp only [Bool.or_eq_true, decide_eq_true_eq]
    exact le_total (tsKey b) (tsKey a)
  have hsorted := List.sorted_mergeSort htrans htotal store
  have hpw : List.Pairwise (fun a b => tsKey b ≤ tsKey a)
      (store.mergeSort (fun a b => decide (tsKey b ≤ tsKey a))) := by
    refine hsorted.imp ?_
    intro a b hab
    simpa using hab
  refine ⟨rfl, ?_, ?_, ?_, ?_⟩
  · simp [get_last_weather, List.length_take, List.length_mergeSort]
  · rw [get_last_weather]
    exact hpw.take
  · rw [get_last_weather, List.take_append_drop]
    exact List.mergeSort_perm store _
  · intro x hx y hy
    have hsplit := hpw
    rw [← List.take_append_drop s.ROW_NUMBER
      (store.mergeSort fun a b => decide (tsKey b ≤ tsKey a))] at hsplit
    refine (List.pairwise_append.mp hsplit).2.2 x ?_ y hy
    rw [get_last_weather] at hx
    exact hx

/-- C6 counterexample: the claim says exporting an empty store produces a
sheet whose header row is the eleven localized labels.  `pd.DataFrame` of an
empty list of row dicts has no columns, so the sheet's header is empty and in
particular is not the eleven-label list (which does have eleven entries). -/
theorem c6_empty_export_counterexample :
    (export_to_excel []).header = [] ∧
    (export_to_excel []).header ≠ excelColumns ∧
    excelColumns.length = 11 ∧
    (export_to_excel []).rows = [] := by
  refine ⟨rfl, ?_, rfl, rfl⟩
  intro h
  have hlen := congrArg List.length h
  simp [export_to_excel, excelColumns] at hlen

/-- C6 amended: exporting when the store contains zero records produces a
spreadsheet with no data rows and no header labels at all (the column labels
come from the exported row dicts, of which there are none). -/
theorem c6_empty_export_amended :
    export_to_excel [] = { header := [], rows := [] } := rfl

/-- C7: a fetched payload (status 200) that lacks the `current` key makes the
normalize-and-persist step a no-op: `save_weather_to_db` returns without
constructing a row, no exception is raised, and the cycle leaves the store
unchanged. -/
theorem c7_missing_current_noop (lat lon : ℚ) (p : Payload) (s : Settings)
    (store : List Weather) (response : HttpResponse)
    (hp : p.current = none) (hr : response.body.current = none)
    (h200 : response.status = 200) :
    save_weather_to_db lat lon (some p) = .ok none ∧
    (fetch_weather_cycle s store response).2 = .ok store := by
  constructor
  · simp [save_weather_to_db, hp]
  · simp [fetch_weather_cycle, get_weather, h200, save_weather_to_db, hr]

/-- Witness for C7: a concrete empty-object payload and a concrete 200
response without `current`. -/
theorem c7_missing_current_noop_witness :
    save_weather_to_db 1 2 (some {}) = .ok none ∧
    (fetch_weather_cycle defaultSettings [sampleRecord]
        { status := 200, body := {} }).2 = .ok [sampleRecord] :=
  c7_missing_current_noop 1 2 {} defaultSettings [sampleRecord]
    { status := 200, body := {} } rfl rfl rfl

/-- C8: the claim says the default FILE_NAME is "weather_data", giving files
named weather_data_<ts>.xlsx.  The source default (settings.py line 18) is
"weather_data.xlsx", so the generated name carries a double extension:
weather_data.xlsx_<ts>.xlsx, not the claimed weather_data_<ts>.xlsx. -/
theorem c8_default_filename_double_extension :
    defaultSettings.FILE_NAME = "weather_data.xlsx" ∧
    export_filename defaultSettings "20260211_120000" =
      "weather_data.xlsx_20260211_120000.xlsx" ∧
    export_filename defaultSettings "20260211_120000" ≠
      "weather_data_20260211_120000.xlsx" := by
  refine ⟨rfl, rfl, ?_⟩
  decide

/-- C9: for a payload whose `current` object is present, the stored pressure
column is exactly the raw surface pressure multiplied by 0.75006 when that
field is present (for any rational value), and null when it is absent. -/
theorem c9_pressure_conversion (lat lon : ℚ) (p : Payload) (cw : CurrentWeather)
    (h : p.current = some cw) :
    (save_weather_to_db lat lon (some p)).map (Option.map Weather.pressure) =
      .ok (some (cw.surface_pressure.map (fun x => x * 0.75006))) := by
  simp [save_weather_to_db, h, Except.map]

/-- Witness for C9: a surface pressure of 1000 hPa is stored as
1000 × 0.75006 = 750.06 mmHg. -/
theorem c9_pressure_conversion_witness :
    (save_weather_to_db 1 2 (some pressurePayload)).map (Option.map Weather.pressure) =
      .ok (some (some 750.06)) := by
  have h := c9_pressure_conversion 1 2 pressurePayload
    { surface_pressure := some 1000 } rfl
  rw [h]
  norm_num
